import Mathlib

/-!
Verification of the notebook `misc/python.ipynb`.

The notebook contains three independent code cells:
* cell 1: imports `cross_validate` and `inspect.signature`, binds the global
  `signature` to `signature(cross_validate)` and prints it;
* cell 2: defines `func_public` and `_func_private`, each printing one fixed
  literal string, then calls both;
* cell 3: defines class `Person` (constructor storing `self._name = name`,
  read-only property `name` returning `self._name`), constructs
  `person = Person("Alice")` and prints `person.name`.

We give a shallow embedding: an AST for exactly the Python fragment these
cells use, a fuel-indexed interpreter over an explicit notebook state
(globals, stdout lines, and a ghost trace of performed calls), and the
`Person` methods embedded as Lean functions mirroring their one-line bodies.
-/

namespace Pyds

/-- The recorded stdout of cell 1: the printed signature of
`sklearn.model_selection.cross_validate`, exactly as in the notebook's
stored output stream. -/
def crossValidateSig : String :=
  "(estimator, X, y=None, *, groups=None, scoring=None, cv=None, n_jobs=None, verbose=0, fit_params=None, params=None, pre_dispatch=\x272*n_jobs\x27, return_train_score=False, return_estimator=False, return_indices=False, error_score=nan)"

/-- Python exceptions that the embedded fragment can raise. -/
inductive PyErr where
  | nameError (msg : String)
  | attrError (msg : String)
  | typeError (msg : String)
  | importError (msg : String)
  | outOfFuel
deriving DecidableEq

/-- Expressions occurring in the three cells. -/
inductive Expr where
  | name (s : String)
  | lit (s : String)
  | call0 (f : Expr)
  | call1 (f : Expr) (a : Expr)
  | attr (e : Expr) (fld : String)
deriving DecidableEq

/-- Statements occurring in the three cells. -/
inductive Stmt where
  | exprStmt (e : Expr)
  | assign (x : String) (e : Expr)
  | def0 (fname : String) (body : List Stmt)
  | classDef (cname : String)
  | importFrom (module : String) (n : String)

/-- Runtime values. -/
inductive Value where
  | none
  | str (s : String)
  | sig (s : String)
  | builtin (fname : String)
  | func (fname : String) (body : List Stmt)
  | cls (cname : String)
  | obj (cname : String) (dict : List (String × Value))

/-- `str()` as used by `print`. -/
def strOfValue : Value → String
  | .none => "None"
  | .str s => s
  | .sig s => s
  | .builtin f => "<built-in function " ++ f ++ ">"
  | .func f _ => "<function " ++ f ++ ">"
  | .cls c => "<class " ++ c ++ ">"
  | .obj c _ => "<" ++ c ++ " object>"

/-- The name of a callable value, recorded in the ghost call trace. -/
def callableName : Value → Option String
  | .builtin f => some f
  | .func f _ => some f
  | .cls c => some c
  | _ => Option.none

/-- Update an association list at a key, keeping insertion order (Python
dict assignment). -/
def updateKey : List (String × Value) → String → Value → List (String × Value)
  | [], x, v => [(x, v)]
  | (k, w) :: rest, x, v =>
      if k = x then (x, v) :: rest else (k, w) :: updateKey rest x v

/-- The notebook state: the global namespace, the stdout lines emitted so
far, and a ghost trace of the calls performed (callee name, and the callee
name of the argument when the argument is itself callable). -/
structure PyState where
  globals : List (String × Value)
  out : List String
  called : List (String × Option String)

def initState : PyState := ⟨[], [], []⟩

def setGlobal (st : PyState) (x : String) (v : Value) : PyState :=
  { st with globals := updateKey st.globals x v }

/-- Builtins visible in every namespace. -/
def builtinsEnv (s : String) : Option Value :=
  if s = "print" then some (.builtin "print") else Option.none

/-- Name resolution: globals first, then builtins. -/
def lookupName (st : PyState) (s : String) : Option Value :=
  match st.globals.lookup s with
  | some v => some v
  | Option.none => builtinsEnv s

/-- The importable names the notebook uses. -/
def importTable (module : String) (n : String) : Option Value :=
  if module = "sklearn.model_selection" && n = "cross_validate" then
    some (.builtin "cross_validate")
  else if module = "inspect" && n = "signature" then
    some (.builtin "signature")
  else Option.none

def recordCall (st : PyState) (f : String) (a : Option String) : PyState :=
  { st with called := st.called ++ [(f, a)] }

def emit (st : PyState) (line : String) : PyState :=
  { st with out := st.out ++ [line] }

/-- `Person.__init__` from the source: `self._name = name`. -/
def personNew (v : Value) : Value := .obj "Person" [("_name", v)]

/-- The `Person.name` property getter from the source: `return self._name`. -/
def personNameGet (dict : List (String × Value)) : Except PyErr Value :=
  match dict.lookup "_name" with
  | some v => .ok v
  | Option.none => .error (.attrError "_name")

/-- Attribute read. The class `Person` has the data descriptor `name`
(consulted before the instance dict); every other attribute is looked up in
the instance dict. -/
def getAttrV (v : Value) (fld : String) : Except PyErr Value :=
  match v with
  | .obj cname dict =>
      if cname = "Person" && fld = "name" then personNameGet dict
      else
        match dict.lookup fld with
        | some w => .ok w
        | Option.none => .error (.attrError fld)
  | _ => .error (.attrError fld)

/-- Attribute assignment. The property `name` of `Person` defines no setter,
so assigning to it raises `AttributeError`; other attributes go to the
instance dict. -/
def setAttrV (v : Value) (fld : String) (w : Value) : Except PyErr Value :=
  match v with
  | .obj cname dict =>
      if cname = "Person" && fld = "name" then
        .error (.attrError "property name of Person object has no setter")
      else .ok (.obj cname (updateKey dict fld w))
  | _ => .error (.attrError fld)

/-- An attribute assignment attempt at the REPL: on an exception the target
object survives unchanged and the error is reported. -/
def attrAssignTry (p : Value) (fld : String) (w : Value) :
    Value × Option PyErr :=
  match setAttrV p fld w with
  | .ok p2 => (p2, Option.none)
  | .error e => (p, some e)

mutual

/-- Expression evaluation, fuel-indexed. -/
def evalExpr : Nat → PyState → Expr → Except PyErr (Value × PyState)
  | 0, _, _ => .error .outOfFuel
  | fuel + 1, st, e =>
      match e with
      | .name s =>
          match lookupName st s with
          | some v => .ok (v, st)
          | Option.none => .error (.nameError s)
      | .lit s => .ok (.str s, st)
      | .attr e1 fld => do
          let (v, st1) ← evalExpr fuel st e1
          let w ← getAttrV v fld
          pure (w, st1)
      | .call0 f => do
          let (fv, st1) ← evalExpr fuel st f
          apply0 fuel st1 fv
      | .call1 f a => do
          let (fv, st1) ← evalExpr fuel st f
          let (av, st2) ← evalExpr fuel st1 a
          apply1 fuel st2 fv av

/-- Call a value with no argument. -/
def apply0 : Nat → PyState → Value → Except PyErr (Value × PyState)
  | 0, _, _ => .error .outOfFuel
  | fuel + 1, st, v =>
      match v with
      | .func fn body => do
          let st1 ← execStmts fuel (recordCall st fn Option.none) body
          pure (.none, st1)
      | .builtin bn => .error (.typeError bn)
      | .cls cn => .error (.typeError (cn ++ " missing required argument"))
      | _ => .error (.typeError "object is not callable")

/-- Call a value with one positional argument. -/
def apply1 : Nat → PyState → Value → Value → Except PyErr (Value × PyState)
  | 0, _, _, _ => .error .outOfFuel
  | _ + 1, st, f, a =>
      match f with
      | .builtin bn =>
          let st1 := recordCall st bn (callableName a)
          if bn = "print" then .ok (.none, emit st1 (strOfValue a ++ "\n"))
          else if bn = "signature" then
            match a with
            | .builtin "cross_validate" => .ok (.sig crossValidateSig, st1)
            | _ => .error (.typeError "signature target not modelled")
          else .error (.typeError bn)
      | .cls cn =>
          if cn = "Person" then
            .ok (personNew a, recordCall st cn (callableName a))
          else .error (.typeError cn)
      | .func fn _ => .error (.typeError (fn ++ " takes 0 positional arguments"))
      | _ => .error (.typeError "object is not callable")

/-- Statement execution. -/
def execStmt : Nat → PyState → Stmt → Except PyErr PyState
  | 0, _, _ => .error .outOfFuel
  | fuel + 1, st, s =>
      match s with
      | .exprStmt e => do
          let (_, st1) ← evalExpr fuel st e
          pure st1
      | .assign x e => do
          let (v, st1) ← evalExpr fuel st e
          pure (setGlobal st1 x v)
      | .def0 fn body => pure (setGlobal st fn (.func fn body))
      | .classDef cn => pure (setGlobal st cn (.cls cn))
      | .importFrom m n =>
          match importTable m n with
          | some v => pure (setGlobal st n v)
          | Option.none => .error (.importError (m ++ "." ++ n))

/-- Execute a list of statements in order. -/
def execStmts : Nat → PyState → List Stmt → Except PyErr PyState
  | 0, _, _ => .error .outOfFuel
  | _ + 1, st, [] => pure st
  | fuel + 1, st, s :: rest => do
      let st1 ← execStmt fuel st s
      execStmts fuel st1 rest

end

/-- Fuel amply sufficient for the notebook's cells. -/
def FUEL : Nat := 32

/-- Cell 1 of the notebook: imports, `signature = signature(cross_validate)`,
`print(signature)`. -/
def cell1 : List Stmt :=
  [ .importFrom "sklearn.model_selection" "cross_validate",
    .importFrom "inspect" "signature",
    .assign "signature" (.call1 (.name "signature") (.name "cross_validate")),
    .exprStmt (.call1 (.name "print") (.name "signature")) ]

/-- The body of `func_public`: `print("This is public")`. -/
def bodyPublic : List Stmt :=
  [.exprStmt (.call1 (.name "print") (.lit "This is public"))]

/-- The body of `_func_private`: `print("This is private")`. -/
def bodyPrivate : List Stmt :=
  [.exprStmt (.call1 (.name "print") (.lit "This is private"))]

/-- Cell 2 of the notebook: the two function definitions and both calls. -/
def cell2 : List Stmt :=
  [ .def0 "func_public" bodyPublic,
    .def0 "_func_private" bodyPrivate,
    .exprStmt (.call0 (.name "func_public")),
    .exprStmt (.call0 (.name "_func_private")) ]

/-- Cell 3 of the notebook: the class definition, the construction of
`person`, and `print(person.name)`. -/
def cell3 : List Stmt :=
  [ .classDef "Person",
    .assign "person" (.call1 (.name "Person") (.lit "Alice")),
    .exprStmt (.call1 (.name "print") (.attr (.name "person") "name")) ]

/-- The whole notebook, cells in order. -/
def notebook : List Stmt := cell1 ++ cell2 ++ cell3

/-- Run a cell from a state. -/
def runCell (st : PyState) (c : List Stmt) : Except PyErr PyState :=
  execStmts FUEL st c

/-- The stdout of a successful run. -/
def okOut : Except PyErr PyState → Option (List String)
  | .ok st => some st.out
  | .error _ => Option.none

/-- The stdout lines a cell appends when run from `st`, `none` when the run
raises. -/
def cellOut (st : PyState) (c : List Stmt) : Option (List String) :=
  match runCell st c with
  | .ok st1 => some (st1.out.drop st.out.length)
  | .error _ => Option.none

/-- Whether a cell runs to completion without an exception. -/
def runsOk (st : PyState) (c : List Stmt) : Bool :=
  match runCell st c with
  | .ok _ => true
  | .error _ => false

/-- Run a list of cells from the initial state, returning the final state
(the initial state if a cell raises; in fact no cell raises). -/
def afterCells (cs : List (List Stmt)) : PyState :=
  match execStmts FUEL initState (cs.foldr (· ++ ·) []) with
  | .ok st => st
  | .error _ => initState

end Pyds

namespace Pyds

/-- The global namespace after the two `def` statements of cell 2. -/
def stAfterDefs : PyState :=
  ⟨[("func_public", .func "func_public" bodyPublic),
    ("_func_private", .func "_func_private" bodyPrivate)], [], []⟩

/-- The call trace of one full run of the notebook. -/
def notebookTrace : List (String × Option String) :=
  [("signature", some "cross_validate"), ("print", Option.none),
   ("func_public", Option.none), ("print", Option.none),
   ("_func_private", Option.none), ("print", Option.none),
   ("Person", Option.none), ("print", Option.none)]

/-- The stdout lines of one full run of the notebook. -/
def notebookOut : List String :=
  [crossValidateSig ++ "\n", "This is public\n", "This is private\n", "Alice\n"]

/-- The global namespace cell 3 creates, with the constructor argument kept
general: `Person` bound to the class and `person` to `Person(v)`. -/
def personGlobals (v : Value) : List (String × Value) :=
  [("Person", .cls "Person"), ("person", personNew v)]

/-- The statement `print(person.name)` of cell 3. -/
def readNameStmt : Stmt :=
  .exprStmt (.call1 (.name "print") (.attr (.name "person") "name"))

/-- Execute `print(person.name)` `n` times in sequence, as a REPL would. -/
def iterRead : Nat → PyState → Except PyErr PyState
  | 0, st => .ok st
  | n + 1, st => do
      let st1 ← execStmt FUEL st readNameStmt
      iterRead n st1

/-- Reduction of `Except` bind on a success, for unfolding interpreter runs. -/
theorem ok_bind {α β : Type} (a : α) (f : α → Except PyErr β) :
    (Except.ok a : Except PyErr α) >>= f = f a := rfl

/-- Reduction of `Except` map on a success. -/
theorem ok_map {α β : Type} (a : α) (f : α → β) :
    f <$> (Except.ok a : Except PyErr α) = Except.ok (f a) := rfl

/-- `pure` in the `Except` monad is `Except.ok`. -/
theorem pure_eq_ok {α : Type} (a : α) : (pure a : Except PyErr α) = Except.ok a := rfl

/-- One execution of `print(person.name)` from any state whose globals are
exactly those cell 3 creates: the globals are left untouched and one line is
printed. -/
theorem execStmt_readName (v : Value) (o : List String)
    (c : List (String × Option String)) :
    execStmt FUEL ⟨personGlobals v, o, c⟩ readNameStmt =
      .ok ⟨personGlobals v, o ++ [strOfValue v ++ "\n"],
           c ++ [("print", callableName v)]⟩ := by
  simp [execStmt, evalExpr, apply1, readNameStmt, FUEL, lookupName, builtinsEnv,
        personGlobals, personNew, getAttrV, personNameGet, recordCall, emit,
        ok_bind, ok_map, pure_eq_ok, callableName, List.lookup]

/-- C1: for every value `v` passed to the `Person` constructor, reading the
`name` property on `Person(v)` returns exactly `v`, unchanged; in particular
`Person("Alice").name` is the string `"Alice"`. -/
theorem person_name_returns_value :
    (∀ v : Value, getAttrV (personNew v) "name" = .ok v) ∧
    getAttrV (personNew (.str "Alice")) "name" = .ok (.str "Alice") :=
  ⟨fun _ => rfl, rfl⟩

/-- C2: each of the two free functions prints exactly its one fixed literal
plus a newline per invocation — calling `func_public` from any state where
the builtin `print` is not shadowed appends exactly `"This is public\n"` to
stdout, calling `_func_private` appends exactly `"This is private\n"`, and
the run of cell 2 produces exactly those two lines. -/
theorem func_print_exact_literal (st : PyState)
    (h : st.globals.lookup "print" = Option.none) :
    apply0 FUEL st (.func "func_public" bodyPublic) =
      .ok (.none, ⟨st.globals, st.out ++ ["This is public\n"],
                   st.called ++ [("func_public", Option.none), ("print", Option.none)]⟩) ∧
    apply0 FUEL st (.func "_func_private" bodyPrivate) =
      .ok (.none, ⟨st.globals, st.out ++ ["This is private\n"],
                   st.called ++ [("_func_private", Option.none), ("print", Option.none)]⟩) ∧
    okOut (runCell initState cell2) = some ["This is public\n", "This is private\n"] := by
  refine ⟨?_, ?_, rfl⟩ <;>
    simp [apply0, execStmts, execStmt, evalExpr, apply1, bodyPublic, bodyPrivate,
          FUEL, lookupName, h, builtinsEnv, recordCall, emit, strOfValue,
          ok_bind, ok_map, pure_eq_ok, callableName]

/-- Witness for C2 at the initial notebook state. -/
theorem func_print_exact_literal_witness :
    apply0 FUEL initState (.func "func_public" bodyPublic) =
      .ok (.none, ⟨initState.globals, initState.out ++ ["This is public\n"],
                   initState.called ++ [("func_public", Option.none), ("print", Option.none)]⟩) :=
  (func_print_exact_literal initState rfl).1

/-- C3: the leading-underscore naming convention does not affect
callability — from the namespace produced by the two `def` statements, the
calls `func_public()` and `_func_private()` both complete normally (an `ok`
result, no exception), each returning `None`, and cell 2 as a whole runs
without raising. -/
theorem underscore_no_access_restriction :
    execStmts FUEL initState
        [Stmt.def0 "func_public" bodyPublic, Stmt.def0 "_func_private" bodyPrivate] =
      .ok stAfterDefs ∧
    evalExpr FUEL stAfterDefs (.call0 (.name "func_public")) =
      .ok (.none, ⟨stAfterDefs.globals, ["This is public\n"],
                   [("func_public", Option.none), ("print", Option.none)]⟩) ∧
    evalExpr FUEL stAfterDefs (.call0 (.name "_func_private")) =
      .ok (.none, ⟨stAfterDefs.globals, ["This is private\n"],
                   [("_func_private", Option.none), ("print", Option.none)]⟩) ∧
    runsOk initState cell2 = true :=
  ⟨rfl, rfl, rfl, rfl⟩

/-- C4: `Person.name` is read-only — assigning to the `name` attribute of
any `Person` object raises `AttributeError` (the property defines no
setter), and after the failed assignment the stored `_name` attribute is
unchanged. -/
theorem person_name_no_setter (v w : Value) (d : List (String × Value)) :
    setAttrV (.obj "Person" d) "name" w =
      .error (.attrError "property name of Person object has no setter") ∧
    attrAssignTry (personNew v) "name" w =
      (personNew v, some (.attrError "property name of Person object has no setter")) ∧
    getAttrV (attrAssignTry (personNew v) "name" w).1 "_name" = .ok v :=
  ⟨rfl, rfl, rfl⟩

/-- C5: with the imports available, every one of the three cells — and the
notebook run as a whole — executes to completion without raising any
exception. -/
theorem notebook_cells_run_ok :
    runsOk initState cell1 = true ∧ runsOk initState cell2 = true ∧
    runsOk initState cell3 = true ∧ runsOk initState notebook = true :=
  ⟨rfl, rfl, rfl, rfl⟩

/-- C6: no operation has any effect beyond stdout — the call
`signature(cross_validate)` leaves the globals and stdout untouched, calling
`func_public()` or `_func_private()` leaves every global binding unchanged
and only appends its line to stdout, and reading the `name` property mutates
nothing (the `called` component is ghost instrumentation, not program
state). -/
theorem operations_only_write_stdout (st : PyState) (v : Value)
    (h : st.globals.lookup "print" = Option.none) :
    apply1 FUEL st (.builtin "signature") (.builtin "cross_validate") =
      .ok (.sig crossValidateSig,
           ⟨st.globals, st.out, st.called ++ [("signature", some "cross_validate")]⟩) ∧
    apply0 FUEL st (.func "func_public" bodyPublic) =
      .ok (.none, ⟨st.globals, st.out ++ ["This is public\n"],
                   st.called ++ [("func_public", Option.none), ("print", Option.none)]⟩) ∧
    apply0 FUEL st (.func "_func_private" bodyPrivate) =
      .ok (.none, ⟨st.globals, st.out ++ ["This is private\n"],
                   st.called ++ [("_func_private", Option.none), ("print", Option.none)]⟩) ∧
    getAttrV (personNew v) "name" = .ok v := by
  refine ⟨?_, ?_, ?_, rfl⟩ <;>
    simp [apply0, execStmts, execStmt, evalExpr, apply1, bodyPublic, bodyPrivate,
          FUEL, lookupName, h, builtinsEnv, recordCall, emit, strOfValue,
          ok_bind, ok_map, pure_eq_ok, callableName]

/-- Witness for C6 at the initial notebook state. -/
theorem operations_only_write_stdout_witness :
    apply1 FUEL initState (.builtin "signature") (.builtin "cross_validate") =
      .ok (.sig crossValidateSig,
           ⟨initState.globals, initState.out,
            initState.called ++ [("signature", some "cross_validate")]⟩) :=
  (operations_only_write_stdout initState Value.none rfl).1

/-- C7: `cross_validate` is never invoked — the full run of the notebook
performs exactly the calls in `notebookTrace`, none of whose callees is
`cross_validate`; the only call receiving `cross_validate` as argument is
`signature`; and the printed signature is then displayed on stdout. -/
theorem cross_validate_never_invoked :
    (execStmts FUEL initState notebook).map PyState.called = .ok notebookTrace ∧
    notebookTrace.all (fun p => !(p.1 == "cross_validate")) = true ∧
    notebookTrace.all (fun p => p.2 != some "cross_validate" || p.1 == "signature") = true ∧
    (notebookTrace.filter (fun p => p.2 == some "cross_validate")).map Prod.fst
      = ["signature"] ∧
    okOut (runCell initState notebook) = some notebookOut :=
  ⟨rfl, rfl, rfl, rfl, rfl⟩

/-- C8: the three cells are mutually independent — the stdout a cell emits
and whether it raises are the same whether it runs first or after any
sequence of the other cells, and the bindings a cell creates (including the
rebound global `signature` of cell 1) are the same in a full notebook run as
in an isolated run of that cell. -/
theorem cells_mutually_independent :
    cellOut (afterCells [cell2]) cell1 = cellOut initState cell1 ∧
    cellOut (afterCells [cell3]) cell1 = cellOut initState cell1 ∧
    cellOut (afterCells [cell2, cell3]) cell1 = cellOut initState cell1 ∧
    cellOut (afterCells [cell3, cell2]) cell1 = cellOut initState cell1 ∧
    cellOut (afterCells [cell1]) cell2 = cellOut initState cell2 ∧
    cellOut (afterCells [cell3]) cell2 = cellOut initState cell2 ∧
    cellOut (afterCells [cell1, cell3]) cell2 = cellOut initState cell2 ∧
    cellOut (afterCells [cell3, cell1]) cell2 = cellOut initState cell2 ∧
    cellOut (afterCells [cell1]) cell3 = cellOut initState cell3 ∧
    cellOut (afterCells [cell2]) cell3 = cellOut initState cell3 ∧
    cellOut (afterCells [cell1, cell2]) cell3 = cellOut initState cell3 ∧
    cellOut (afterCells [cell2, cell1]) cell3 = cellOut initState cell3 ∧
    (afterCells [cell1, cell2, cell3]).globals.lookup "person"
      = (afterCells [cell3]).globals.lookup "person" ∧
    (afterCells [cell1, cell2, cell3]).globals.lookup "func_public"
      = (afterCells [cell2]).globals.lookup "func_public" ∧
    (afterCells [cell1, cell2, cell3]).globals.lookup "_func_private"
      = (afterCells [cell2]).globals.lookup "_func_private" ∧
    (afterCells [cell1, cell2, cell3]).globals.lookup "signature"
      = (afterCells [cell1]).globals.lookup "signature" :=
  ⟨rfl, rfl, rfl, rfl, rfl, rfl, rfl, rfl, rfl, rfl, rfl, rfl, rfl, rfl, rfl, rfl⟩

/-- C9: the underscored attribute `_name` of any `Person(v)` is directly
readable from outside the class without error and equals the value of the
`name` property; in the state cell 3 creates, evaluating `person._name`
succeeds with `"Alice"` — the single leading underscore imposes no access
restriction. -/
theorem underscored_attribute_readable (v : Value) :
    getAttrV (personNew v) "_name" = .ok v ∧
    getAttrV (personNew v) "name" = getAttrV (personNew v) "_name" ∧
    evalExpr FUEL (afterCells [cell3]) (.attr (.name "person") "_name")
      = .ok (.str "Alice", afterCells [cell3]) :=
  ⟨rfl, rfl, rfl⟩

/-- C10: the value stored in `_name` by the constructor is preserved by
every operation the program performs on the object — executing
`print(person.name)` any number of times from the namespace cell 3 creates
leaves the globals (hence `person._name`) exactly as they were and prints
the same stored value each time. -/
theorem ctor_value_preserved_by_reads (v : Value) (o : List String)
    (c : List (String × Option String)) (n : Nat) :
    iterRead n ⟨personGlobals v, o, c⟩ =
      .ok ⟨personGlobals v, o ++ List.replicate n (strOfValue v ++ "\n"),
           c ++ List.replicate n ("print", callableName v)⟩ := by
  induction n generalizing o c with
  | zero => simp [iterRead]
  | succ n ih =>
      simp [iterRead, execStmt_readName, ok_bind, ih, List.replicate_succ,
            List.append_assoc]

end Pyds
